import Mathlib

set_option maxHeartbeats 2000000
set_option maxRecDepth 4000

/-!
Verification of `rsiseg/models/segmentors_old/fmda_adaptor.py` (class `FMDAAdaptor`).

Tensors are modelled as 4-D arrays (batch, channel, height, width) of rationals,
represented by a shape and a total index function that is normalized to `0`
outside the shape bounds.  Fallible Python code (KeyError, AssertionError,
TypeError, IndexError) is modelled with `Except String`.
-/

/-- A 4-D tensor (batch, channel, height, width), channel-first.  Entries outside
the shape are normalized to `0` (see `Tensor4.Wf`). -/
@[ext]
structure Tensor4 where
  n : ℕ
  c : ℕ
  h : ℕ
  w : ℕ
  data : ℕ → ℕ → ℕ → ℕ → ℚ

/-- Well-formedness: the index function is `0` outside the shape bounds. -/
def Tensor4.Wf (t : Tensor4) : Prop :=
  ∀ i j y x, ¬(i < t.n ∧ j < t.c ∧ y < t.h ∧ x < t.w) → t.data i j y x = 0

/-- Build a tensor with masked (normalized) data. -/
def mkT (n c h w : ℕ) (f : ℕ → ℕ → ℕ → ℕ → ℚ) : Tensor4 :=
  ⟨n, c, h, w, fun i j y x => if i < n ∧ j < c ∧ y < h ∧ x < w then f i j y x else 0⟩

theorem mkT_wf (n c h w : ℕ) (f : ℕ → ℕ → ℕ → ℕ → ℚ) : (mkT n c h w f).Wf := by
  intro i j y x hx
  simp only [mkT] at hx ⊢
  exact if_neg hx

/-- Models `tensor.flip(dims=[3])`: mirror along the width axis. -/
def Tensor4.flipX (t : Tensor4) : Tensor4 :=
  mkT t.n t.c t.h t.w fun i j y x => t.data i j y (t.w - 1 - x)

/-- Models `tensor.flip(dims=[2])`: mirror along the height axis. -/
def Tensor4.flipY (t : Tensor4) : Tensor4 :=
  mkT t.n t.c t.h t.w fun i j y x => t.data i j (t.h - 1 - y) x

/-- One counter-clockwise quarter turn in the spatial plane (`dims=[2,3]`):
the new spatial shape is `(w, h)` and `new[y][x] = old[x][w-1-y]`. -/
def rot1 (t : Tensor4) : Tensor4 :=
  mkT t.n t.c t.w t.h fun i j y x => t.data i j x (t.w - 1 - y)

/-- Models `torch.rot90(t, k, dims=[2,3])`: `k` quarter turns, `k` reduced mod 4 the
Python way (non-negative remainder). -/
def rot90 (k : ℤ) (t : Tensor4) : Tensor4 :=
  rot1^[(k % 4).toNat] t

/-- Python slicing `t[:, :, y1:y2, x1:x2]` (end indices clamped to the shape). -/
def crop4 (t : Tensor4) (y1 y2 x1 x2 : ℕ) : Tensor4 :=
  mkT t.n t.c (min y2 t.h - y1) (min x2 t.w - x1) fun i j y x => t.data i j (y1 + y) (x1 + x)

/-- Source coordinate used by the tensor engine's bilinear resampler
(`align_corners=False` convention), clamped below at 0. -/
def srcIdxScale (sf : ℚ) (dst : ℕ) : ℚ :=
  max (((dst : ℚ) + 1/2) / sf - 1/2) 0

/-- Bilinear sample of channel `(i, j)` at fractional source position
`(sy, sx)`, with edge clamping.  Models the tensor engine's resampler; no
claim depends on the interpolated values, only on shapes. -/
def bilinGet (t : Tensor4) (i j : ℕ) (sy sx : ℚ) : ℚ :=
  let y0 : ℕ := min (Int.floor sy).toNat (t.h - 1)
  let y1 : ℕ := min (y0 + 1) (t.h - 1)
  let x0 : ℕ := min (Int.floor sx).toNat (t.w - 1)
  let x1 : ℕ := min (x0 + 1) (t.w - 1)
  let dy : ℚ := sy - (y0 : ℚ)
  let dx : ℚ := sx - (x0 : ℚ)
  (1 - dy) * (1 - dx) * t.data i j y0 x0 + (1 - dy) * dx * t.data i j y0 x1 +
    dy * (1 - dx) * t.data i j y1 x0 + dy * dx * t.data i j y1 x1

/-- Models `F.interpolate(data, scale_factor=(sf0, sf1), mode='bilinear')` on a 4-D
tensor: `sf0` scales dim 2 (the height) and `sf1` scales dim 3 (the width) —
the scale-factor tuple is matched to the spatial dims in order.  Output size
is `floor(input_size * scale)`. -/
def interp4 (t : Tensor4) (sf0 sf1 : ℚ) : Tensor4 :=
  mkT t.n t.c (Int.floor ((t.h : ℚ) * sf0)).toNat (Int.floor ((t.w : ℚ) * sf1)).toNat
    fun i j y x => bilinGet t i j (srcIdxScale sf0 y) (srcIdxScale sf1 x)

/-- Modelled from the spec: `rsiseg.ops.resize` (not under `src/`), a bilinear
resize of a 4-D tensor to a target spatial size, with an `align_corners`
flag. -/
def resizeTo (t : Tensor4) (H W : ℕ) (alignCorners : Bool) : Tensor4 :=
  mkT t.n t.c H W fun i j y x =>
    let sy : ℚ := if alignCorners then (y : ℚ) * ((t.h : ℚ) - 1) / ((H : ℚ) - 1)
                  else max (((y : ℚ) + 1/2) * (t.h : ℚ) / (H : ℚ) - 1/2) 0
    let sx : ℚ := if alignCorners then (x : ℚ) * ((t.w : ℚ) - 1) / ((W : ℚ) - 1)
                  else max (((x : ℚ) + 1/2) * (t.w : ℚ) / (W : ℚ) - 1/2) 0
    bilinGet t i j sy sx

/-- Per-sample augmentation metadata dictionary; a `none` field models an
absent key. -/
structure Meta where
  scale_factor : Option (ℚ × ℚ × ℚ × ℚ) := none
  crop_bbox : Option (ℕ × ℕ × ℕ × ℕ) := none
  rotate_k : Option ℤ := none
  flip_horizontal : Option Bool := none
  flip_vertical : Option Bool := none
  ori_shape : Option (ℕ × ℕ × ℕ) := none
  flip : Option Bool := none
  flip_direction : Option String := none

/-- Models `int(x * scale)` for a non-negative coordinate: floor after scaling. -/
def rescaleCoord (scale : ℚ) (x : ℕ) : ℕ :=
  (Int.floor ((x : ℚ) * scale)).toNat

/-- Models `proportional_crop(data, crop_bbox, scale)`: rescale each bbox coordinate
by `scale` (`int(x * scale)`) and slice `data[:, :, y1:y2, x1:x2]`. -/
def proportional_crop (data : Tensor4) (crop_bbox : ℕ × ℕ × ℕ × ℕ) (scale : ℚ) : Tensor4 :=
  crop4 data (rescaleCoord scale crop_bbox.1) (rescaleCoord scale crop_bbox.2.1)
    (rescaleCoord scale crop_bbox.2.2.1) (rescaleCoord scale crop_bbox.2.2.2)

/-- Step 1 of `transform_by_metas`: if `'scale_factor' in metas`, resample by
`F.interpolate(data, scale_factor=(w_scale, h_scale), mode='bilinear')`. -/
def scaleStep (me : Meta) (d : Tensor4) : Tensor4 :=
  match me.scale_factor with
  | none => d
  | some (w_scale, h_scale, _, _) => interp4 d w_scale h_scale

/-- Step 2 of `transform_by_metas`: if `'crop_bbox' in metas`, read
`metas['scale_factor']` (KeyError if absent), assert `w_scale == h_scale`,
crop proportionally with ratio `1/8`, then read `metas['ori_shape']`
(KeyError if absent; the derived values are unused by the source). -/
def cropStep (me : Meta) (d : Tensor4) : Except String Tensor4 :=
  match me.crop_bbox with
  | none => .ok d
  | some bb =>
    match me.scale_factor with
    | none => .error "KeyError: scale_factor"
    | some (w_scale, h_scale, _, _) =>
      if w_scale = h_scale then
        match me.ori_shape with
        | none => .error "KeyError: ori_shape"
        | some _ => .ok (proportional_crop d bb (1/8))
      else
        .error "AssertionError: w_scale == h_scale"

/-- Step 3 of `transform_by_metas`: if `'rotate_k' in metas`, rotate by that
many quarter turns in the spatial plane. -/
def rotStep (me : Meta) (d : Tensor4) : Tensor4 :=
  match me.rotate_k with
  | none => d
  | some k => rot90 k d

/-- Step 4 of `transform_by_metas`: `'flip_horizontal' in metas and
metas['flip_horizontal']` mirrors along the width axis. -/
def fhStep (me : Meta) (d : Tensor4) : Tensor4 :=
  if me.flip_horizontal = some true then d.flipX else d

/-- Step 5 of `transform_by_metas`: `'flip_vertical' in metas and
metas['flip_vertical']` mirrors along the height axis. -/
def fvStep (me : Meta) (d : Tensor4) : Tensor4 :=
  if me.flip_vertical = some true then d.flipY else d

/-- Models `transform_by_metas(self, data, metas)`: scale, crop, rotate, horizontal
flip, vertical flip, each step keyed on its metadata entry. -/
def transform_by_metas (me : Meta) (data : Tensor4) : Except String Tensor4 :=
  (cropStep me (scaleStep me data)).map fun d => fvStep me (fhStep me (rotStep me d))

theorem rot1_n (t : Tensor4) : (rot1 t).n = t.n := rfl

theorem rot1_c (t : Tensor4) : (rot1 t).c = t.c := rfl

theorem rot1_h (t : Tensor4) : (rot1 t).h = t.w := rfl

theorem rot1_w (t : Tensor4) : (rot1 t).w = t.h := rfl

theorem rot1_data (t : Tensor4) (i j y x : ℕ) :
    (rot1 t).data i j y x =
      if i < t.n ∧ j < t.c ∧ y < t.w ∧ x < t.h then t.data i j x (t.w - 1 - y) else 0 := rfl

theorem rot4_id (d : Tensor4) (hd : d.Wf) : rot1 (rot1 (rot1 (rot1 d))) = d := by
  refine Tensor4.ext rfl rfl rfl rfl ?_
  funext i j y x
  simp only [rot1_data, rot1_n, rot1_c, rot1_h, rot1_w]
  by_cases hb : i < d.n ∧ j < d.c ∧ y < d.h ∧ x < d.w
  · obtain ⟨h1, h2, h3, h4⟩ := hb
    have e1 : d.h - 1 - (d.h - 1 - y) = y := by omega
    have e2 : d.w - 1 - (d.w - 1 - x) = x := by omega
    rw [e1, e2]
    split_ifs <;> first | rfl | (exfalso; omega)
  · rw [if_neg hb]
    exact (hd i j y x hb).symm

/-- C6 — Applying the rotation step of `transform_by_metas` with
`rotate_k = k` and then with `rotate_k = (4 - k) % 4` returns every
(well-formed) 4-D tensor to its original orientation, for `k` in
`{0, 1, 2, 3}`. -/
theorem rotate_roundtrip (d : Tensor4) (hd : d.Wf) (k : ℕ) (hk : k < 4)
    (me me' : Meta) (h1 : me.rotate_k = some (k : ℤ))
    (h2 : me'.rotate_k = some ((4 - (k : ℤ)) % 4)) :
    rotStep me' (rotStep me d) = d := by
  have key : ∀ a b : ℕ, b + a = 4 → rot1^[b] (rot1^[a] d) = d := by
    intro a b hab
    rw [← Function.iterate_add_apply, hab]
    exact rot4_id d hd
  simp only [rotStep, h1, h2, rot90]
  interval_cases k
  · norm_num
  · norm_num
    exact key 1 3 rfl
  · norm_num
    exact key 2 2 rfl
  · norm_num
    exact key 3 1 rfl

def rotT : Tensor4 := mkT 1 1 2 3 fun i j y x => (i : ℚ) + 2 * j + 3 * y + 5 * x + 1

theorem rotate_roundtrip_witness :
    rotStep {rotate_k := some ((4 - ((1 : ℕ) : ℤ)) % 4)}
      (rotStep {rotate_k := some ((1 : ℕ) : ℤ)} rotT) = rotT :=
  rotate_roundtrip rotT (mkT_wf _ _ _ _ _) 1 (by decide) _ _ rfl rfl

/-- C1 — In `transform_by_metas`, each step whose key is absent from the
metadata is a no-op on the tensor; in particular, for metadata with none of
the recognized keys, `transform_by_metas` returns its input unchanged. -/
theorem transform_absent_keys_noop :
    (∀ (me : Meta) (d : Tensor4), me.scale_factor = none → scaleStep me d = d)
  ∧ (∀ (me : Meta) (d : Tensor4), me.crop_bbox = none → cropStep me d = .ok d)
  ∧ (∀ (me : Meta) (d : Tensor4), me.rotate_k = none → rotStep me d = d)
  ∧ (∀ (me : Meta) (d : Tensor4), me.flip_horizontal = none → fhStep me d = d)
  ∧ (∀ (me : Meta) (d : Tensor4), me.flip_vertical = none → fvStep me d = d)
  ∧ (∀ (me : Meta) (d : Tensor4), me.scale_factor = none → me.crop_bbox = none →
      me.rotate_k = none → me.flip_horizontal = none → me.flip_vertical = none →
      transform_by_metas me d = .ok d) := by
  refine ⟨?_, ?_, ?_, ?_, ?_, ?_⟩
  · intro me d h; simp [scaleStep, h]
  · intro me d h; simp [cropStep, h]
  · intro me d h; simp [rotStep, h]
  · intro me d h; simp [fhStep, h]
  · intro me d h; simp [fvStep, h]
  · intro me d h1 h2 h3 h4 h5
    simp [transform_by_metas, scaleStep, cropStep, rotStep, fhStep, fvStep, h1, h2, h3, h4, h5,
      Except.map]

theorem transform_absent_keys_noop_witness :
    transform_by_metas {} (mkT 1 1 2 2 fun _ _ _ _ => 3) =
      .ok (mkT 1 1 2 2 fun _ _ _ _ => 3) :=
  transform_absent_keys_noop.2.2.2.2.2 {} _ rfl rfl rfl rfl rfl

theorem rescaleCoord_eighth (v : ℕ) : rescaleCoord (1/8) v = v / 8 := by
  unfold rescaleCoord
  rw [show ((v : ℚ) * (1/8)) = ((v : ℤ) : ℚ) / ((8 : ℕ) : ℚ) by push_cast; ring]
  rw [Rat.floor_intCast_div_natCast]
  rw [show ((v : ℤ) / ((8 : ℕ) : ℤ)) = ((v / 8 : ℕ) : ℤ) by rw [Int.natCast_div]]
  exact Int.toNat_natCast _

/-- C5 — If metadata contains a `crop_bbox` and the horizontal and
vertical scale factors are unequal, `transform_by_metas` fails the equality
assertion; if they are equal (and `ori_shape` is present, which the source
reads), the crop step crops the tensor at the crop coordinates rescaled by
the fixed `1/8` ratio. -/
theorem crop_assert_and_rescale :
    (∀ (me : Meta) (d : Tensor4) bb ws hs q r, me.crop_bbox = some bb →
      me.scale_factor = some (ws, hs, q, r) → ws ≠ hs →
      transform_by_metas me d = .error "AssertionError: w_scale == h_scale")
  ∧ (∀ (me : Meta) (d : Tensor4) bb ws hs q r ori, me.crop_bbox = some bb →
      me.scale_factor = some (ws, hs, q, r) → ws = hs → me.ori_shape = some ori →
      cropStep me d = .ok (proportional_crop d bb (1/8)))
  ∧ (∀ (d : Tensor4) (y1 y2 x1 x2 : ℕ), proportional_crop d (y1, y2, x1, x2) (1/8) =
      crop4 d (y1 / 8) (y2 / 8) (x1 / 8) (x2 / 8)) := by
  refine ⟨?_, ?_, ?_⟩
  · intro me d bb ws hs q r hbb hsf hne
    simp only [transform_by_metas, cropStep, hbb, hsf]
    rw [if_neg hne]
    rfl
  · intro me d bb ws hs q r ori hbb hsf heq hori
    simp [cropStep, hbb, hsf, heq, hori]
  · intro d y1 y2 x1 x2
    simp only [proportional_crop]
    rw [rescaleCoord_eighth, rescaleCoord_eighth, rescaleCoord_eighth, rescaleCoord_eighth]

theorem crop_assert_and_rescale_witness :
    (transform_by_metas
        {crop_bbox := some (0, 16, 0, 16), scale_factor := some (2, 3, 2, 3)}
        (mkT 1 1 4 4 fun _ _ _ _ => 0) = .error "AssertionError: w_scale == h_scale")
  ∧ (cropStep
        {crop_bbox := some (0, 16, 0, 16), scale_factor := some (2, 2, 2, 2),
         ori_shape := some (32, 32, 3)}
        (mkT 1 1 4 4 fun _ _ _ _ => 0) =
      .ok (proportional_crop (mkT 1 1 4 4 fun _ _ _ _ => 0) (0, 16, 0, 16) (1/8)))
  ∧ (proportional_crop (mkT 1 1 4 4 fun _ _ _ _ => 0) (0, 16, 0, 16) (1/8) =
      crop4 (mkT 1 1 4 4 fun _ _ _ _ => 0) 0 2 0 2) :=
  ⟨crop_assert_and_rescale.1 _ _ _ _ _ _ _ rfl rfl (by norm_num),
   crop_assert_and_rescale.2.1 _ _ _ _ _ _ _ _ rfl rfl rfl rfl,
   crop_assert_and_rescale.2.2 _ 0 16 0 16⟩

/-- C3 (counterexample evidence) — With `scale_factor = (2, 1, ...)`
(`w_scale = 2`, `h_scale = 1`) on a `(1,1,2,4)` tensor, the scale step
produces shape `(1,1,4,4)`: the height is scaled by `w_scale` and the width
by `h_scale` (the factors are passed to the resampler in swapped order), not
shape `(1,1,2,8)` as the claim (width times `w_scale`, height times
`h_scale`) requires. -/
theorem scale_axis_swap :
    ((transform_by_metas {scale_factor := some (2, 1, 2, 1)}
        (mkT 1 1 2 4 fun _ _ _ _ => 0)).map (fun t => (t.n, t.c, t.h, t.w))
      = .ok (1, 1, 4, 4))
  ∧ ((1, 1, 4, 4) : ℕ × ℕ × ℕ × ℕ) ≠ (1, 1, 2, 8) := by
  constructor
  · simp only [transform_by_metas, scaleStep, cropStep, rotStep, fhStep, fvStep, Except.map,
      interp4, mkT]
    simp
    rw [show ((2 : ℚ) * 2) = ((4 : ℤ) : ℚ) by norm_num, Int.floor_intCast]
    rfl
  · decide

/-- A 3-D tensor (generic dims), used for per-sample slices and arg-max maps. -/
structure Tensor3 where
  d0 : ℕ
  d1 : ℕ
  d2 : ℕ
  data : ℕ → ℕ → ℕ → ℚ

/-- A 2-D tensor, used for per-sample prediction maps. -/
structure Tensor2 where
  d0 : ℕ
  d1 : ℕ
  data : ℕ → ℕ → ℚ

/-- Values stored in a state dictionary: a tensor, a list of tensors, or the
visualization tuples built by `train_step`. -/
inductive StateVal where
  | t4 (t : Tensor4)
  | t4s (ts : List Tensor4)
  | t3 (t : Tensor3)
  | t3s (ts : List Tensor3)
  | pair (a b : Tensor4)
  | triple (a b c : Tensor4)

/-- A Python dict from string keys, as an association list. -/
abbrev States : Type := List (String × StateVal)

/-- A losses dict: named scalar loss values. -/
abbrev Losses : Type := List (String × ℚ)

/-- Python `dict.update`: bindings of `new` override bindings of `old`. -/
def dUpd {β : Type} (old new : List (String × β)) : List (String × β) :=
  old.filter (fun p => (List.lookup p.1 new).isNone) ++ new

/-- Modelled from the spec: `rsiseg.core.add_prefix` (not under `src/`) maps
every key `k` of a dict to `prefix + "." + k`. -/
def addPfx {β : Type} (inputs : List (String × β)) (p : String) : List (String × β) :=
  inputs.map fun q => (p ++ "." ++ q.1, q.2)

/-- Effectful map over a list in the `Except` monad, stopping at the first
error (the semantics of a Python loop or comprehension that may raise). -/
def mapME {A B : Type} (f : A → Except String B) : List A → Except String (List B)
  | [] => .ok []
  | a :: l =>
    match f a with
    | .error e => .error e
    | .ok b =>
      match mapME f l with
      | .error e => .error e
      | .ok bs => .ok (b :: bs)

/-- A decode or auxiliary head: the training-forward contract
`(features, metadata, ground_truth) -> (losses, states)` and the test-forward
contract `(features, metadata) -> logits` (the opaque config arguments are
omitted).  Opaque external collaborator. -/
structure Head where
  fwdTrain : List Tensor4 → List Meta → Tensor4 → Losses × States
  fwdTest : List Tensor4 → List Meta → Tensor4

/-- Models `auxiliary_head` configuration: absent, a single head, or a list. -/
inductive AuxCfg where
  | none
  | single (hd : Head)
  | multiple (hds : List Head)

/-- Models `test_cfg`: mode string plus sliding-window geometry. -/
structure TestCfg where
  mode : String
  stride : ℕ × ℕ := (1, 1)
  crop_size : ℕ × ℕ := (1, 1)

/-- The `FMDAAdaptor` model: its opaque collaborators (backbone, neck, heads,
similarity loss) as function fields, plus configuration. -/
structure Model where
  numClasses : ℕ
  alignCorners : Bool
  backbone : Tensor4 → List Tensor4
  neck : Option (List Tensor4 → List Tensor4)
  decodeHead : Head
  auxHead : AuxCfg
  lossSimFeat : Tensor4 → Tensor4 → Losses × States
  testCfg : TestCfg

/-- Models `extract_feat`: backbone, then the neck when configured. -/
def extract_feat (m : Model) (img : Tensor4) : List Tensor4 :=
  let x := m.backbone img
  match m.neck with
  | none => x
  | some nk => nk x

/-- Models `encode_decode`: extract features, decode-head test forward, resize the
logits to the input size, and return them with the
`{'feats': x, 'seg_logits': out}` state dict. -/
def encode_decode (m : Model) (img : Tensor4) (img_metas : List Meta) : Tensor4 × States :=
  let x := extract_feat m img
  let out := m.decodeHead.fwdTest x img_metas
  let out := resizeTo out img.h img.w m.alignCorners
  (out, [("feats", StateVal.t4s x), ("seg_logits", StateVal.t4 out)])

/-- Models `img.new_zeros((n, c, h, w))`. -/
def zeros4 (n c h w : ℕ) : Tensor4 :=
  mkT n c h w fun _ _ _ _ => 0

/-- Models `F.pad(t, (left, right, top, bottom))` with zeros. -/
def pad4 (t : Tensor4) (l r tp bt : ℕ) : Tensor4 :=
  mkT t.n t.c (t.h + tp + bt) (t.w + l + r) fun i j y x =>
    if tp ≤ y ∧ y < tp + t.h ∧ l ≤ x ∧ x < l + t.w then t.data i j (y - tp) (x - l) else 0

/-- In-place `+=` of two tensors; a shape mismatch is a runtime error
(broadcasting is not modelled — the accumulator shapes in `slide_inference`
match exactly). -/
def add4 (a b : Tensor4) : Except String Tensor4 :=
  if a.n = b.n ∧ a.c = b.c ∧ a.h = b.h ∧ a.w = b.w then
    .ok (mkT a.n a.c a.h a.w fun i j y x => a.data i j y x + b.data i j y x)
  else .error "RuntimeError: shape mismatch in add"

/-- The coverage-count buffer of `slide_inference`.  Its values are the
integer overlap multiplicities, so they are modelled with natural-number
entries (the source stores them in a float tensor). -/
structure CountT where
  n : ℕ
  c : ℕ
  h : ℕ
  w : ℕ
  data : ℕ → ℕ → ℕ → ℕ → ℕ

/-- Models `img.new_zeros((n, 1, h, w))` for the count buffer. -/
def zerosC (n c h w : ℕ) : CountT :=
  ⟨n, c, h, w, fun _ _ _ _ => 0⟩

/-- Models `count_mat[:, :, y1:y2, x1:x2] += 1`. -/
def countInc (cnt : CountT) (y1 y2 x1 x2 : ℕ) : CountT :=
  ⟨cnt.n, cnt.c, cnt.h, cnt.w, fun i j y x =>
    if i < cnt.n ∧ j < cnt.c ∧ y < cnt.h ∧ x < cnt.w then
      cnt.data i j y x + (if y1 ≤ y ∧ y < y2 ∧ x1 ≤ x ∧ x < x2 then 1 else 0)
    else 0⟩

/-- Models `(count_mat == 0).sum() != 0`: some entry of the count buffer is zero. -/
def countHasZero (cnt : CountT) : Bool :=
  (List.range cnt.n).any fun i => (List.range cnt.c).any fun j =>
    (List.range cnt.h).any fun y => (List.range cnt.w).any fun x =>
      decide (cnt.data i j y x = 0)

/-- Models `preds / count_mat`: the single count channel broadcasts over the class
channels. -/
def divCount (p : Tensor4) (cnt : CountT) : Tensor4 :=
  mkT p.n p.c p.h p.w fun i j y x => p.data i j y x / (cnt.data i 0 y x : ℚ)

/-- Grid-cell count along one axis:
`max(img - crop + stride - 1, 0) // stride + 1` (Python floor division; the
numerator is non-negative, where all division conventions agree). -/
def gridsZ (img crop stride : ℤ) : ℤ :=
  max (img - crop + stride - 1) 0 / stride + 1

/-- Crop bounds along one axis for grid index `idx`:
`a1 = idx * stride; a2 = min(a1 + crop, limit); a1 = max(a2 - crop, 0)`. -/
def cellB (idx stride crop limit : ℕ) : ℕ × ℕ :=
  let e := min (idx * stride + crop) limit
  (e - crop, e)

/-- Models `slide_inference`: overlapping-crop inference.  Accumulates padded crop
logits and a coverage count over a grid of `gridsZ` cells per axis, asserts
full coverage, averages, and optionally resizes to `ori_shape`.  ONNX-export
branches of the source are omitted (not exporting). -/
def slide_inference (m : Model) (img : Tensor4) (img_meta : List Meta) (rescale : Bool) :
    Except String Tensor4 := do
  let hstride := m.testCfg.stride.1
  let wstride := m.testCfg.stride.2
  let hcrop := m.testCfg.crop_size.1
  let wcrop := m.testCfg.crop_size.2
  let hgrids := (gridsZ (img.h : ℤ) (hcrop : ℤ) (hstride : ℤ)).toNat
  let wgrids := (gridsZ (img.w : ℤ) (wcrop : ℤ) (wstride : ℤ)).toNat
  let pc ← (List.product (List.range hgrids) (List.range wgrids)).foldlM
    (fun (pc : Tensor4 × CountT) hw => do
      let yb := cellB hw.1 hstride hcrop img.h
      let xb := cellB hw.2 wstride wcrop img.w
      let cropImg := crop4 img yb.1 yb.2 xb.1 xb.2
      let ed := encode_decode m cropImg img_meta
      let p ← add4 pc.1 (pad4 ed.1 xb.1 (img.w - xb.2) yb.1 (img.h - yb.2))
      pure (p, countInc pc.2 yb.1 yb.2 xb.1 xb.2))
    (zeros4 img.n m.numClasses img.h img.w, zerosC img.n 1 img.h img.w)
  if countHasZero pc.2 then
    .error "AssertionError: count_mat has zero entries"
  else
    let preds := divCount pc.1 pc.2
    if rescale then
      match img_meta.head? with
      | none => .error "IndexError: img_meta is empty"
      | some m0 =>
        match m0.ori_shape with
        | none => .error "KeyError: ori_shape"
        | some ori => pure (resizeTo preds ori.1 ori.2.1 m.alignCorners)
    else
      pure preds

/-- Models `whole_inference`: one `encode_decode` pass, optionally resized to
`ori_shape`. -/
def whole_inference (m : Model) (img : Tensor4) (img_meta : List Meta) (rescale : Bool) :
    Except String (Tensor4 × States) :=
  let ed := encode_decode m img img_meta
  if rescale then
    match img_meta.head? with
    | none => .error "IndexError: img_meta is empty"
    | some m0 =>
      match m0.ori_shape with
      | none => .error "KeyError: ori_shape"
      | some ori => .ok (resizeTo ed.1 ori.1 ori.2.1 m.alignCorners, ed.2)
  else
    .ok ed

/-- Truncated exponential series: a computable stand-in for the tensor
engine's (floating-point, hence already approximate) `exp` inside
`F.softmax`; no claim depends on the softmax values. -/
def qexp (x : ℚ) : ℚ :=
  (List.range 8).foldl (fun a k => a + x ^ k / (Nat.factorial k : ℚ)) 0

/-- Models `F.softmax(t, dim=1)`: normalized exponentials over the class channel. -/
def softmax4 (t : Tensor4) : Tensor4 :=
  mkT t.n t.c t.h t.w fun i j y x =>
    qexp (t.data i j y x) / (List.range t.c).foldl (fun a j2 => a + qexp (t.data i j2 y x)) 0

/-- First part of the `inference` wrapper: assert the test mode, read
`img_meta[0]['ori_shape']`, assert all samples share it, and dispatch to
slide or whole inference (slide yields an empty state dict).  The
`DataContainer` unwrapping branch is omitted (metadata is passed as a plain
list). -/
def segLogitOf (m : Model) (img : Tensor4) (img_meta : List Meta) (rescale : Bool) :
    Except String (Tensor4 × States) :=
  if m.testCfg.mode = "slide" ∨ m.testCfg.mode = "whole" then
    match img_meta.head? with
    | none => .error "IndexError: img_meta is empty"
    | some m0 =>
      match m0.ori_shape with
      | none => .error "KeyError: ori_shape"
      | some ori =>
        match mapME (fun me => match me.ori_shape with
          | none => Except.error "KeyError: ori_shape"
          | some o => Except.ok o) img_meta with
        | .error e => .error e
        | .ok oris =>
          if oris.all fun o => o = ori then
            if m.testCfg.mode = "slide" then
              match slide_inference m img img_meta rescale with
              | .error e => .error e
              | .ok sl => .ok (sl, ([] : States))
            else
              whole_inference m img img_meta rescale
          else .error "AssertionError: ori_shape mismatch"
  else .error "AssertionError: invalid test mode"

/-- Models `inference`: strategy dispatch (`segLogitOf`), softmax over the class
dim, then the flip-undo on `img_meta[0]`.  The stray `pdb.set_trace()`
breakpoint in the flip branch of the source is modelled as a no-op
(debugger continue). -/
def inference (m : Model) (img : Tensor4) (img_meta : List Meta) (rescale : Bool) :
    Except String (Tensor4 × States) :=
  match segLogitOf m img img_meta rescale with
  | .error e => .error e
  | .ok st =>
    let output := softmax4 st.1
    match img_meta.head? with
    | none => .error "IndexError: img_meta is empty"
    | some m0 =>
      match m0.flip with
      | none => .error "KeyError: flip"
      | some fl =>
        if fl then
          match m0.flip_direction with
          | none => .error "KeyError: flip_direction"
          | some dir =>
            if dir = "horizontal" then .ok (output.flipX, st.2)
            else if dir = "vertical" then .ok (output.flipY, st.2)
            else .error "AssertionError: invalid flip_direction"
        else .ok (output, st.2)

/-- Models `t[idx]` on a 4-D tensor: the per-sample 3-D slice. -/
def slice0 (t : Tensor4) (idx : ℕ) : Tensor3 :=
  ⟨t.c, t.h, t.w, fun j y x =>
    if j < t.c ∧ y < t.h ∧ x < t.w ∧ idx < t.n then t.data idx j y x else 0⟩

/-- Models `t[idx]` on a 3-D tensor: a 2-D slice. -/
def slice03 (t : Tensor3) (idx : ℕ) : Tensor2 :=
  ⟨t.d1, t.d2, fun y x =>
    if y < t.d1 ∧ x < t.d2 ∧ idx < t.d0 then t.data idx y x else 0⟩

/-- First maximal class index at one pixel (`torch` returns the first
maximal index on ties). -/
def argmaxC (t : Tensor4) (i y x : ℕ) : ℕ :=
  (List.range t.c).foldl (fun best j => if t.data i best y x < t.data i j y x then j else best) 0

/-- Models `t.argmax(dim=1)` (also `t.max(dim=1)[1]`). -/
def argmax4 (t : Tensor4) : Tensor3 :=
  ⟨t.n, t.h, t.w, fun i y x =>
    if i < t.n ∧ y < t.h ∧ x < t.w then (argmaxC t i y x : ℚ) else 0⟩

/-- One iteration of the per-sample state-slicing loop of `simple_test`:
read `states['feats']` and `states['seg_logits']` and slice them at `idx`. -/
def sampleState (states : States) (idx : ℕ) : Except String States :=
  match List.lookup "feats" states with
  | none => .error "KeyError: feats"
  | some (StateVal.t4s xs) =>
    match List.lookup "seg_logits" states with
    | none => .error "KeyError: seg_logits"
    | some (StateVal.t4 s) =>
      .ok [("feats", StateVal.t3s (xs.map fun x => slice0 x idx)),
           ("seg_logits", StateVal.t3 (slice0 s idx))]
    | some _ => .error "TypeError: seg_logits"
  | some _ => .error "TypeError: feats"

/-- The state-slicing loop of `simple_test` over the batch dim. -/
def stateSlices (states : States) (count : ℕ) : Except String (List States) :=
  mapME (fun idx => sampleState states idx) (List.range count)

/-- Models `simple_test`: run `inference`, arg-max over classes, unravel the batch
dim, and slice the returned states per sample.  ONNX branch omitted. -/
def simple_test (m : Model) (img : Tensor4) (img_meta : List Meta) (rescale : Bool) :
    Except String (List Tensor2 × List States) :=
  match inference m img img_meta rescale with
  | .error e => .error e
  | .ok r =>
    let seg_pred := argmax4 r.1
    let preds := (List.range seg_pred.d0).map fun idx => slice03 seg_pred idx
    match stateSlices r.2 seg_pred.d0 with
    | .error e => .error e
    | .ok sts => .ok (preds, sts)

/-- Models `aug_test`: asserts `rescale`; `seg_logit = self.inference(imgs[0], ...)`
binds the `(probs, states)` pair returned by `inference`, the loop
`seg_logit += self.inference(imgs[i], ...)` concatenates pairs, and
`seg_logit /= len(imgs)` — division of a tuple by an int — raises a
`TypeError` before `argmax` is ever reached. -/
def aug_test (m : Model) (imgs : List Tensor4) (img_metas : List (List Meta)) (rescale : Bool) :
    Except String (List Tensor2) :=
  if rescale then
    match imgs, img_metas with
    | im0 :: rest, me0 :: mrest =>
      match inference m im0 me0 rescale with
      | .error e => .error e
      | .ok _ =>
        match mapME (fun i =>
            match rest.get? i, mrest.get? i with
            | some im, some me => inference m im me rescale
            | _, _ => Except.error "IndexError: list index out of range") (List.range rest.length) with
        | .error e => .error e
        | .ok _ => .error "TypeError: unsupported operand types for div-assign: tuple and int"
    | _, _ => .error "IndexError: list index out of range"
  else .error "AssertionError: rescale"

/-- Models `forward_train`: the deprecated legacy entry point; raises before
computing anything. -/
def forward_train (m : Model) (img : Tensor4) (img_metas : List Meta)
    (gt_semantic_seg : Tensor4) : Except String Unit :=
  .error "ValueError: Deprecated forward_train method! Use train_step instead"

/-- True when `e` succeeded. -/
def exOk {A : Type} (e : Except String A) : Bool :=
  match e with
  | .ok _ => true
  | .error _ => false

theorem int_ceil_div (a s : ℤ) (hs : 0 < s) :
    ⌈(a : ℚ) / (s : ℚ)⌉ = (a + s - 1) / s := by
  have hsq : (0 : ℚ) < (s : ℚ) := by exact_mod_cast hs
  have hne : s ≠ 0 := ne_of_gt hs
  have heq : s * ((a + s - 1) / s) + (a + s - 1) % s = a + s - 1 := Int.ediv_add_emod _ _
  have hr0 : 0 ≤ (a + s - 1) % s := Int.emod_nonneg _ hne
  have hrs : (a + s - 1) % s < s := Int.emod_lt_of_pos _ hs
  have heqQ : (s : ℚ) * (((a + s - 1) / s : ℤ) : ℚ) + (((a + s - 1) % s : ℤ) : ℚ)
      = (a : ℚ) + (s : ℚ) - 1 := by exact_mod_cast heq
  have hr0Q : (0 : ℚ) ≤ (((a + s - 1) % s : ℤ) : ℚ) := by exact_mod_cast hr0
  have hrsQ : (((a + s - 1) % s : ℤ) : ℚ) < (s : ℚ) := by exact_mod_cast hrs
  have hrs1Q : (((a + s - 1) % s : ℤ) : ℚ) + 1 ≤ (s : ℚ) := by
    exact_mod_cast Int.lt_iff_add_one_le.mp hrs
  rw [Int.ceil_eq_iff]
  constructor
  · rw [lt_div_iff₀ hsq, sub_mul, one_mul, mul_comm]
    linarith
  · rw [div_le_iff₀ hsq, mul_comm]
    linarith

theorem gridsZ_eq_ceil (i c s : ℤ) (hs : 0 < s) :
    gridsZ i c s = max (⌈((i : ℚ) - (c : ℚ)) / (s : ℚ)⌉ + 1) 1 := by
  have hcast : ((i : ℚ) - (c : ℚ)) = (((i - c) : ℤ) : ℚ) := by push_cast; ring
  rw [hcast, int_ceil_div _ _ hs]
  unfold gridsZ
  rcases le_or_lt 0 (i - c + s - 1) with h | h
  · rw [max_eq_left h]
    have h0 : 0 ≤ (i - c + s - 1) / s := Int.ediv_nonneg h hs.le
    have h1 : (1 : ℤ) ≤ (i - c + s - 1) / s + 1 := by linarith
    rw [max_eq_left h1]
  · rw [max_eq_right h.le]
    have hq : (i - c + s - 1) / s < 0 := Int.ediv_neg' h hs
    have h1 : (i - c + s - 1) / s + 1 ≤ 1 := by linarith
    rw [max_eq_right h1]
    simp

/-- C10 — The legacy `forward_train` entry point always fails with the
error directing callers to `train_step`; it never returns normally. -/
theorem forward_train_always_fails (m : Model) (img : Tensor4) (img_metas : List Meta)
    (gt : Tensor4) :
    forward_train m img img_metas gt =
      .error "ValueError: Deprecated forward_train method! Use train_step instead" := rfl

def slideModel : Model where
  numClasses := 2
  alignCorners := false
  backbone := fun t => [t]
  neck := none
  decodeHead := { fwdTrain := fun _ _ _ => ([], []), fwdTest := fun _ _ => zeros4 1 2 1 1 }
  auxHead := AuxCfg.none
  lossSimFeat := fun _ _ => ([], [])
  testCfg := { mode := "slide", stride := (16, 16), crop_size := (32, 32) }

def meta64 : Meta := { ori_shape := some (64, 64, 3), flip := some false }

/-- C4 — `slide_inference` uses `ceil((img - crop) / stride) + 1` grid
cells per axis, clamped to at least 1; for a `(1,3,64,64)` image with crop
`(32,32)` and stride `(16,16)` the grid is 3×3, every pixel is covered by
some grid cell, and the coverage assertion does not fire (the run
succeeds). -/
theorem slide_grid_and_coverage :
    (∀ i c s : ℤ, 0 < s → gridsZ i c s = max (⌈((i : ℚ) - (c : ℚ)) / (s : ℚ)⌉ + 1) 1)
  ∧ gridsZ 64 32 16 = 3
  ∧ (∀ v : Fin 64, ∃ idx : Fin 3,
      (cellB (idx : ℕ) 16 32 64).1 ≤ (v : ℕ) ∧ (v : ℕ) < (cellB (idx : ℕ) 16 32 64).2)
  ∧ exOk (slide_inference slideModel (zeros4 1 3 64 64) [meta64] true) = true := by
  refine ⟨gridsZ_eq_ceil, by decide, by decide, ?_⟩
  decide

theorem slide_grid_and_coverage_witness :
    gridsZ 100 32 16 = max (⌈((100 : ℚ) - (32 : ℚ)) / (16 : ℚ)⌉ + 1) 1 :=
  slide_grid_and_coverage.1 100 32 16 (by decide)

def wholeModel : Model where
  numClasses := 2
  alignCorners := false
  backbone := fun t => [t]
  neck := none
  decodeHead := { fwdTrain := fun _ _ _ => ([], []), fwdTest := fun _ _ => zeros4 1 2 1 1 }
  auxHead := AuxCfg.none
  lossSimFeat := fun _ _ => ([], [])
  testCfg := { mode := "whole" }

def metaW : Meta := { ori_shape := some (2, 2, 3), flip := some false }

/-- C2 (failure evidence) — On a single augmented view for which plain
`inference` succeeds, `aug_test` does not return the arg-max predictions:
`seg_logit` is bound to the `(probs, states)` pair returned by `inference`
and `seg_logit /= len(imgs)` raises a `TypeError`. -/
theorem aug_test_tuple_type_error :
    exOk (inference wholeModel (zeros4 1 3 2 2) [metaW] true) = true
  ∧ aug_test wholeModel [zeros4 1 3 2 2] [[metaW]] true =
      .error "TypeError: unsupported operand types for div-assign: tuple and int" :=
  ⟨rfl, rfl⟩

/-- C7 — When strategy dispatch succeeds, `inference` flips the softmax
output back along the width axis for `flip_direction = 'horizontal'` and
along the height axis for `'vertical'` before returning it; with `flip`
unset it returns the softmax output unflipped. -/
theorem inference_flip_handling (m : Model) (img : Tensor4) (metas : List Meta)
    (rescale : Bool) (sl : Tensor4) (st : States) (m0 : Meta)
    (hseg : segLogitOf m img metas rescale = .ok (sl, st))
    (hhead : metas.head? = some m0) :
    (m0.flip = some true → m0.flip_direction = some "horizontal" →
        inference m img metas rescale = .ok ((softmax4 sl).flipX, st))
  ∧ (m0.flip = some true → m0.flip_direction = some "vertical" →
        inference m img metas rescale = .ok ((softmax4 sl).flipY, st))
  ∧ (m0.flip = some false →
        inference m img metas rescale = .ok (softmax4 sl, st)) := by
  refine ⟨?_, ?_, ?_⟩
  · intro hf hd
    simp [inference, hseg, hhead, hf, hd]
  · intro hf hd
    simp [inference, hseg, hhead, hf, hd]
  · intro hf
    simp [inference, hseg, hhead, hf]

def metaFH : Meta :=
  { ori_shape := some (2, 2, 3), flip := some true, flip_direction := some "horizontal" }

def slSTW : Tensor4 × States :=
  match segLogitOf wholeModel (zeros4 1 3 2 2) [metaFH] true with
  | .ok p => p
  | .error _ => (zeros4 0 0 0 0, [])

theorem inference_flip_handling_witness :
    inference wholeModel (zeros4 1 3 2 2) [metaFH] true =
      .ok ((softmax4 slSTW.1).flipX, slSTW.2) :=
  (inference_flip_handling wholeModel (zeros4 1 3 2 2) [metaFH] true slSTW.1 slSTW.2 metaFH
    rfl rfl).1 rfl rfl

theorem mapME_exOk {A B : Type} (f : A → Except String B) (l : List A)
    (h : ∀ a ∈ l, exOk (f a) = true) : exOk (mapME f l) = true := by
  induction l with
  | nil => rfl
  | cons a l ih =>
    have ha := h a (List.mem_cons_self a l)
    have hrest := ih fun x hx => h x (List.mem_cons_of_mem _ hx)
    rw [mapME]
    cases hfa : f a with
    | error e => rw [hfa] at ha; simp [exOk] at ha
    | ok b =>
      cases hl : mapME f l with
      | error e => rw [hl] at hrest; simp [exOk] at hrest
      | ok bs => rfl

theorem stateSlices_nil (count : ℕ) (hc : 0 < count) :
    stateSlices [] count = .error "KeyError: feats" := by
  obtain ⟨k, rfl⟩ : ∃ k, count = k + 1 := ⟨count - 1, by omega⟩
  rw [stateSlices, List.range_succ_eq_map]
  rfl

theorem stateSlices_ok_of (xs : List Tensor4) (out : Tensor4) (st : States) (count : ℕ)
    (hst : st = [("feats", StateVal.t4s xs), ("seg_logits", StateVal.t4 out)]) :
    exOk (stateSlices st count) = true := by
  subst hst
  exact mapME_exOk _ _ fun a _ => rfl

theorem segLogitOf_slide_states (m : Model) (img : Tensor4) (metas : List Meta)
    (rescale : Bool) (p : Tensor4 × States) (hm : m.testCfg.mode = "slide")
    (h : segLogitOf m img metas rescale = .ok p) : p.2 = [] := by
  unfold segLogitOf at h
  rw [hm, if_pos (Or.inl rfl)] at h
  split at h
  · exact absurd h (by simp)
  · split at h
    · exact absurd h (by simp)
    · split at h
      · exact absurd h (by simp)
      · split at h
        · rw [if_pos rfl] at h
          split at h
          · exact absurd h (by simp)
          · injection h with h2
            rw [← h2]
        · exact absurd h (by simp)

theorem whole_inference_states (m : Model) (img : Tensor4) (metas : List Meta)
    (rescale : Bool) (p : Tensor4 × States)
    (h : whole_inference m img metas rescale = .ok p) :
    ∃ xs out, p.2 = [("feats", StateVal.t4s xs), ("seg_logits", StateVal.t4 out)] := by
  simp only [whole_inference, encode_decode] at h
  split at h
  · split at h
    · exact absurd h (by simp)
    · split at h
      · exact absurd h (by simp)
      · injection h with h2
        exact ⟨_, _, by rw [← h2]⟩
  · injection h with h2
    exact ⟨_, _, by rw [← h2]⟩

theorem segLogitOf_whole_states (m : Model) (img : Tensor4) (metas : List Meta)
    (rescale : Bool) (p : Tensor4 × States) (hm : m.testCfg.mode ≠ "slide")
    (h : segLogitOf m img metas rescale = .ok p) :
    ∃ xs out, p.2 = [("feats", StateVal.t4s xs), ("seg_logits", StateVal.t4 out)] := by
  unfold segLogitOf at h
  split at h
  · split at h
    · exact absurd h (by simp)
    · split at h
      · exact absurd h (by simp)
      · split at h
        · exact absurd h (by simp)
        · split at h
          all_goals
            first
              | exact absurd h (by simp)
              | exact absurd (by assumption : m.testCfg.mode = "slide") hm
              | exact whole_inference_states m img metas rescale p h
  · exact absurd h (by simp)

theorem inference_states (m : Model) (img : Tensor4) (metas : List Meta) (rescale : Bool)
    (o : Tensor4) (st : States) (h : inference m img metas rescale = .ok (o, st)) :
    ∃ q, segLogitOf m img metas rescale = .ok q ∧ st = q.2 := by
  unfold inference at h
  split at h
  · exact absurd h (by simp)
  · rename_i q heq
    refine ⟨q, heq, ?_⟩
    split at h
    · exact absurd h (by simp)
    · split at h
      · exact absurd h (by simp)
      · split at h
        · split at h
          · exact absurd h (by simp)
          · split at h
            · injection h with h2
              exact (congrArg Prod.snd h2).symm
            · split at h
              · injection h with h2
                exact (congrArg Prod.snd h2).symm
              · exact absurd h (by simp)
        · injection h with h2
          exact (congrArg Prod.snd h2).symm

/-- C9 — In slide mode the inference wrapper returns an empty state dict,
so the per-sample state slicing of `simple_test` (its read of
`states['feats']`) fails on any nonempty batch; in whole mode, where the
state dict carries the feats/seg_logits entries, `simple_test` returns the
per-sample state dicts. -/
theorem simple_test_slide_fails :
    (∀ (m : Model) (img : Tensor4) (metas : List Meta) (rescale : Bool) (o : Tensor4)
       (st : States), m.testCfg.mode = "slide" →
       inference m img metas rescale = .ok (o, st) → 0 < o.n →
       simple_test m img metas rescale = .error "KeyError: feats")
  ∧ (∀ (m : Model) (img : Tensor4) (metas : List Meta) (rescale : Bool) (o : Tensor4)
       (st : States), m.testCfg.mode ≠ "slide" →
       inference m img metas rescale = .ok (o, st) →
       exOk (simple_test m img metas rescale) = true) := by
  constructor
  · intro m img metas rescale o st hm hinf hn
    obtain ⟨q, hseg, hst⟩ := inference_states m img metas rescale o st hinf
    have h2 : q.2 = [] := segLogitOf_slide_states m img metas rescale q hm hseg
    have hss : stateSlices st (argmax4 o).d0 = .error "KeyError: feats" := by
      rw [hst, h2]
      exact stateSlices_nil _ hn
    unfold simple_test
    rw [hinf]
    simp [hss]
  · intro m img metas rescale o st hm hinf
    obtain ⟨q, hseg, hst⟩ := inference_states m img metas rescale o st hinf
    obtain ⟨xs, out, hq2⟩ := segLogitOf_whole_states m img metas rescale q hm hseg
    have hok : exOk (stateSlices st (argmax4 o).d0) = true :=
      stateSlices_ok_of xs out _ _ (hst.trans hq2)
    unfold simple_test
    rw [hinf]
    cases hss : stateSlices st (argmax4 o).d0 with
    | error e => rw [hss] at hok; simp [exOk] at hok
    | ok sts => simp [hss, exOk]

def slideModel4 : Model where
  numClasses := 2
  alignCorners := false
  backbone := fun t => [t]
  neck := none
  decodeHead := { fwdTrain := fun _ _ _ => ([], []), fwdTest := fun _ _ => zeros4 1 2 1 1 }
  auxHead := AuxCfg.none
  lossSimFeat := fun _ _ => ([], [])
  testCfg := { mode := "slide", stride := (2, 2), crop_size := (2, 2) }

def meta4 : Meta := { ori_shape := some (4, 4, 3), flip := some false }

def infS : Tensor4 × States :=
  match inference slideModel4 (zeros4 1 3 4 4) [meta4] true with
  | .ok p => p
  | .error _ => (zeros4 0 0 0 0, [])

def infW : Tensor4 × States :=
  match inference wholeModel (zeros4 1 3 2 2) [metaW] true with
  | .ok p => p
  | .error _ => (zeros4 0 0 0 0, [])

theorem simple_test_slide_fails_witness :
    simple_test slideModel4 (zeros4 1 3 4 4) [meta4] true = .error "KeyError: feats"
  ∧ exOk (simple_test wholeModel (zeros4 1 3 2 2) [metaW] true) = true :=
  ⟨simple_test_slide_fails.1 slideModel4 (zeros4 1 3 4 4) [meta4] true infS.1 infS.2
      rfl rfl (by decide),
   simple_test_slide_fails.2 wholeModel (zeros4 1 3 2 2) [metaW] true infW.1 infW.2
      (by decide) rfl⟩

/-- Models `feats_trg.permute(0, 3, 1, 2)`: spatial-last to channel-first layout. -/
def permute0312 (t : Tensor4) : Tensor4 :=
  mkT t.n t.w t.c t.h fun i j y x => t.data i y x j

/-- Models `data.unsqueeze(0)` for `data = feats_trg[idx]`: one sample as a
`(1, c, h, w)` tensor. -/
def sliceUnsq (t : Tensor4) (idx : ℕ) : Tensor4 :=
  mkT 1 t.c t.h t.w fun _ j y x => t.data idx j y x

/-- Models `torch.stack([d.squeeze(0) for d in ds], dim=0)`: restack the per-sample
`(1, c, h, w)` tensors into a batch; unequal shapes are a runtime error. -/
def stack4 (ts : List Tensor4) : Except String Tensor4 :=
  match ts with
  | [] => .error "RuntimeError: stack expects a non-empty list"
  | t0 :: rest =>
    if rest.all fun t => t.c = t0.c ∧ t.h = t0.h ∧ t.w = t0.w then
      .ok (mkT ts.length t0.c t0.h t0.w fun i j y x =>
        (ts.getD i (zeros4 0 0 0 0)).data 0 j y x)
    else .error "RuntimeError: stack expects each tensor to be equal size"

/-- Lines 186–191 of `train_step`: permute the precomputed target features to
channel-first, apply `transform_by_metas` per sample with the target
metadata, and restack. -/
def transformTargets (metas_trg : List Meta) (feats_trg : Tensor4) : Except String Tensor4 :=
  let ft := permute0312 feats_trg
  match mapME (fun im => transform_by_metas im.2 (sliceUnsq ft im.1))
      ((List.range ft.n).zip metas_trg) with
  | .error e => .error e
  | .ok ds => stack4 ds

/-- The loop over an auxiliary-head list in
`_auxiliary_head_forward_train`, with enumeration indices. -/
def auxMulti (x : List Tensor4) (metas : List Meta) (gt : Tensor4) :
    List (ℕ × Head) → Losses × States → Losses × States
  | [], acc => acc
  | p :: l, acc =>
    let r := p.2.fwdTrain x metas gt
    auxMulti x metas gt l
      (dUpd acc.1 (addPfx r.1 ("aux_" ++ toString p.1)),
       dUpd acc.2 (addPfx r.2 ("aux_" ++ toString p.1)))

/-- Models `_auxiliary_head_forward_train`: one aux head contributes under prefix
`aux`, a list under `aux_0`, `aux_1`, …  (Only called when an auxiliary head
is configured; the `none` case is unreachable from `train_step`.) -/
def aux_forward_train (m : Model) (x : List Tensor4) (metas : List Meta) (gt : Tensor4) :
    Losses × States :=
  match m.auxHead with
  | AuxCfg.none => ([], [])
  | AuxCfg.single hd =>
    let r := hd.fwdTrain x metas gt
    (addPfx r.1 "aux", addPfx r.2 "aux")
  | AuxCfg.multiple hds =>
    auxMulti x metas gt ((List.range hds.length).zip hds) ([], [])

/-- The training batch: `data_batch.values()` in its fixed order. -/
structure Batch where
  img_metas_src : List Meta
  img_src : Tensor4
  gt_src : Tensor4
  img_metas_trg : List Meta
  img_trg : Tensor4
  gt_trg : Tensor4
  feats_trg : Tensor4

/-- The `train_step` result bundle. -/
structure Outputs where
  loss : ℚ
  log_vars : Losses
  num_samples : ℕ
  states : States

/-- Modelled from the spec: `BaseSegmentor._parse_losses` (not under `src/`)
aggregates the losses into one scalar by summation plus a per-name log
mapping. -/
def parseLosses (losses : Losses) : ℚ × Losses :=
  (losses.foldl (fun a p => a + p.2) 0, losses)

/-- Models `t.unsqueeze(1)` on a `(B, H, W)` tensor. -/
def unsq3 (s : Tensor3) : Tensor4 :=
  mkT s.d0 1 s.d1 s.d2 fun i _ y x => s.data i y x

/-- Pointwise `1 - t`. -/
def oneSub4 (t : Tensor4) : Tensor4 :=
  mkT t.n t.c t.h t.w fun i j y x => 1 - t.data i j y x

/-- Models `t.max(dim=1)[1].unsqueeze(1)`: per-pixel arg-max class as a
one-channel tensor. -/
def argmaxUnsq (t : Tensor4) : Tensor4 :=
  mkT t.n 1 t.h t.w fun i _ y x => (argmaxC t i y x : ℚ)

/-- Models `train_step`: transform/restack the precomputed target features, extract
features for both domains, decode-head training forward for both domains,
similarity loss, detach (identity on values) of the stored logits, optional
auxiliary heads, visualization entries, and loss aggregation. -/
def train_step (m : Model) (b : Batch) : Except String Outputs :=
  match transformTargets b.img_metas_trg b.feats_trg with
  | .error e => .error e
  | .ok feats_trg =>
    let x_src := extract_feat m b.img_src
    let x_trg := extract_feat m b.img_trg
    let ds := m.decodeHead.fwdTrain x_src b.img_metas_src b.gt_src
    let dt := m.decodeHead.fwdTrain x_trg b.img_metas_trg b.gt_trg
    match List.lookup "seg_logits" dt.2 with
    | none => .error "KeyError: seg_logits"
    | some (StateVal.t4 slTrg) =>
      let sim := m.lossSimFeat feats_trg slTrg
      match List.lookup "seg_logits" ds.2 with
      | none => .error "KeyError: seg_logits"
      | some (StateVal.t4 slSrc) =>
        let state_dec_src := dUpd ds.2 [("seg_logits", StateVal.t4 slSrc)]
        let state_dec_trg := dUpd dt.2 [("seg_logits", StateVal.t4 slTrg)]
        let losses := dUpd (dUpd (dUpd [] sim.1) (addPfx ds.1 "src.dec")) (addPfx dt.1 "trg.dec")
        let states := dUpd (dUpd ([] : States) (addPfx state_dec_src "src.dec"))
          (addPfx state_dec_trg "trg.dec")
        let lsst :=
          match m.auxHead with
          | AuxCfg.none => (losses, states)
          | _ =>
            let axs := aux_forward_train m x_src b.img_metas_src b.gt_src
            let axt := aux_forward_train m x_trg b.img_metas_trg b.gt_trg
            (dUpd (dUpd losses (addPfx axs.1 "src")) (addPfx axt.1 "trg"),
             dUpd (dUpd states (addPfx axs.2 "src")) (addPfx axt.2 "trg"))
        match List.lookup "src.dec.seg_logits" lsst.2 with
        | some (StateVal.t4 ls) =>
          match List.lookup "trg.dec.seg_logits" lsst.2 with
          | some (StateVal.t4 lt) =>
            match List.lookup "sim_feat" sim.2 with
            | some (StateVal.t3 sf) =>
              let vis : States :=
                [("vis|seg_mask_src",
                   StateVal.triple b.img_src b.gt_src (argmaxUnsq ls)),
                 ("vis|seg_mask_trg",
                   StateVal.triple b.img_trg b.gt_trg (argmaxUnsq lt)),
                 ("vis|density_sim_feat",
                   StateVal.pair b.img_trg (oneSub4 (unsq3 sf)))]
              let statesV := dUpd lsst.2 vis
              let pl := parseLosses lsst.1
              .ok { loss := pl.1, log_vars := pl.2,
                    num_samples := b.img_metas_src.length + b.img_metas_trg.length,
                    states := statesV }
            | _ => .error "KeyError: sim_feat"
          | _ => .error "KeyError: trg.dec.seg_logits"
        | _ => .error "KeyError: src.dec.seg_logits"
      | some _ => .error "TypeError: seg_logits is not a tensor"
    | some _ => .error "TypeError: seg_logits is not a tensor"

theorem str_ext (a b : String) (h : a.data = b.data) : a = b := by
  cases a
  cases b
  exact congrArg String.mk h

theorem data_append (a b : String) : (a ++ b).data = a.data ++ b.data := rfl

theorem str_app_cancel (a b c : String) (h : a ++ b = a ++ c) : b = c := by
  have hd := congrArg String.data h
  rw [data_append, data_append] at hd
  exact str_ext _ _ (List.append_cancel_left hd)

theorem dUpd_nil {β : Type} (l : List (String × β)) : dUpd [] l = l := by
  simp [dUpd]

theorem lookup_dUpd_some {β : Type} (old new : List (String × β)) (k : String) (v : β)
    (h : List.lookup k new = some v) : List.lookup k (dUpd old new) = some v := by
  unfold dUpd
  induction old with
  | nil => simpa using h
  | cons q old ih =>
    simp only [List.filter_cons]
    by_cases hq : (List.lookup q.1 new).isNone
    · have hqk : ¬(k = q.1) := by
        intro he
        rw [← he, h] at hq
        simp at hq
      have hb : (k == q.1) = false := beq_eq_false_iff_ne.mpr hqk
      rw [if_pos (by simpa using hq), List.cons_append]
      simp only [List.lookup, hb]
      exact ih
    · rw [if_neg (by simpa using hq)]
      exact ih

theorem lookup_dUpd_none {β : Type} (old new : List (String × β)) (k : String)
    (h : List.lookup k new = none) : List.lookup k (dUpd old new) = List.lookup k old := by
  unfold dUpd
  induction old with
  | nil => simpa using h
  | cons q old ih =>
    simp only [List.filter_cons]
    by_cases hq : (List.lookup q.1 new).isNone
    · rw [if_pos (by simpa using hq), List.cons_append]
      by_cases hqk : k = q.1
      · have hb : (k == q.1) = true := beq_iff_eq.mpr hqk
        simp only [List.lookup, hb]
      · have hb : (k == q.1) = false := beq_eq_false_iff_ne.mpr hqk
        simp only [List.lookup, hb]
        exact ih
    · rw [if_neg (by simpa using hq)]
      have hqk : ¬(k = q.1) := by
        intro he
        rw [← he] at hq
        simp [h] at hq
      have hb : (k == q.1) = false := beq_eq_false_iff_ne.mpr hqk
      rw [ih]
      simp only [List.lookup, hb]

theorem lookup_addPfx {β : Type} (l : List (String × β)) (p k : String) :
    List.lookup (p ++ "." ++ k) (addPfx l p) = List.lookup k l := by
  induction l with
  | nil => rfl
  | cons q l ih =>
    by_cases hk : k = q.1
    · subst hk
      simp [addPfx, List.lookup]
    · have hne : ¬(p ++ "." ++ k = p ++ "." ++ q.1) := fun hc =>
        hk (str_app_cancel (p ++ ".") _ _ hc)
      have hb1 : (p ++ "." ++ k == p ++ "." ++ q.1) = false := beq_eq_false_iff_ne.mpr hne
      have hb2 : (k == q.1) = false := beq_eq_false_iff_ne.mpr hk
      simp only [addPfx, List.map_cons, List.lookup, hb1, hb2]
      exact ih

theorem lookup_addPfx_none {β : Type} (l : List (String × β)) (p target : String)
    (h : ∀ r, ¬(p ++ "." ++ r = target)) : List.lookup target (addPfx l p) = none := by
  induction l with
  | nil => rfl
  | cons q l ih =>
    have hne : ¬(target = p ++ "." ++ q.1) := fun hc => h q.1 hc.symm
    have hb : (target == p ++ "." ++ q.1) = false := beq_eq_false_iff_ne.mpr hne
    simp only [addPfx, List.map_cons, List.lookup, hb]
    exact ih

theorem mem_dUpd {β : Type} (old new : List (String × β)) (q : String × β)
    (h : q ∈ dUpd old new) : q ∈ old ∨ q ∈ new := by
  unfold dUpd at h
  rcases List.mem_append.mp h with h | h
  · exact Or.inl (List.mem_filter.mp h).1
  · exact Or.inr h

theorem str_app_assoc (a b c : String) : a ++ b ++ c = a ++ (b ++ c) := by
  apply str_ext
  simp [data_append, List.append_assoc]

theorem auxMulti_keys (x : List Tensor4) (metas : List Meta) (gt : Tensor4)
    (L : List (ℕ × Head)) (acc : Losses × States)
    (hacc : ∀ q ∈ acc.2, ∃ r, q.1 = "aux" ++ r) :
    ∀ q ∈ (auxMulti x metas gt L acc).2, ∃ r, q.1 = "aux" ++ r := by
  induction L generalizing acc with
  | nil => exact hacc
  | cons p l ih =>
    refine ih _ ?_
    intro q hq
    rcases mem_dUpd _ _ _ hq with h | h
    · exact hacc _ h
    · obtain ⟨a, ha, hq1⟩ := List.mem_map.mp h
      refine ⟨"_" ++ (toString p.1 ++ ("." ++ a.1)), ?_⟩
      rw [← hq1]
      show "aux_" ++ toString p.1 ++ "." ++ a.1 = "aux" ++ ("_" ++ (toString p.1 ++ ("." ++ a.1)))
      rw [str_app_assoc, str_app_assoc]
      rw [show ("aux_" : String) = "aux" ++ "_" from rfl, str_app_assoc]

theorem aux_states_keys (m : Model) (x : List Tensor4) (metas : List Meta) (gt : Tensor4) :
    ∀ q ∈ (aux_forward_train m x metas gt).2, ∃ r, q.1 = "aux" ++ r := by
  unfold aux_forward_train
  split
  · intro q hq
    simp at hq
  · intro q hq
    obtain ⟨a, ha, hq1⟩ := List.mem_map.mp hq
    refine ⟨"." ++ a.1, ?_⟩
    rw [← hq1]
    exact str_app_assoc "aux" "." a.1
  · exact auxMulti_keys x metas gt _ _ (by intro q hq; simp at hq)

theorem lookup_pfxed_aux_none {β : Type} (l : List (String × β)) (p target : String)
    (hkeys : ∀ q ∈ l, ∃ r, q.1 = "aux" ++ r)
    (hne : ∀ r, ¬(p ++ "." ++ ("aux" ++ r) = target)) :
    List.lookup target (addPfx l p) = none := by
  induction l with
  | nil => rfl
  | cons q l ih =>
    obtain ⟨r, hr⟩ := hkeys q (List.mem_cons_self _ _)
    have hneq : ¬(target = p ++ "." ++ q.1) := by
      rw [hr]
      intro hc
      exact hne r hc.symm
    have hb : (target == p ++ "." ++ q.1) = false := beq_eq_false_iff_ne.mpr hneq
    simp only [addPfx, List.map_cons, List.lookup, hb]
    exact ih fun q2 hq2 => hkeys q2 (List.mem_cons_of_mem _ hq2)

theorem ne_src_aux_srcdec (r : String) :
    ¬("src" ++ "." ++ ("aux" ++ r) = "src.dec.seg_logits") := by
  intro hc
  have hd := congrArg String.data hc
  simp only [data_append] at hd
  simp at hd

theorem ne_trg_aux_srcdec (r : String) :
    ¬("trg" ++ "." ++ ("aux" ++ r) = "src.dec.seg_logits") := by
  intro hc
  have hd := congrArg String.data hc
  simp only [data_append] at hd
  simp at hd

theorem ne_src_aux_trgdec (r : String) :
    ¬("src" ++ "." ++ ("aux" ++ r) = "trg.dec.seg_logits") := by
  intro hc
  have hd := congrArg String.data hc
  simp only [data_append] at hd
  simp at hd

theorem ne_trg_aux_trgdec (r : String) :
    ¬("trg" ++ "." ++ ("aux" ++ r) = "trg.dec.seg_logits") := by
  intro hc
  have hd := congrArg String.data hc
  simp only [data_append] at hd
  simp at hd

theorem ne_trgdec_pfx_srcdec (r : String) :
    ¬("trg.dec" ++ "." ++ r = "src.dec.seg_logits") := by
  intro hc
  have hd := congrArg String.data hc
  simp only [data_append] at hd
  simp at hd

theorem lookup_vis_keys (S : States) (v1 v2 v3 : StateVal) :
    List.lookup "vis|seg_mask_src" (dUpd S [("vis|seg_mask_src", v1),
        ("vis|seg_mask_trg", v2), ("vis|density_sim_feat", v3)]) = some v1
  ∧ List.lookup "vis|seg_mask_trg" (dUpd S [("vis|seg_mask_src", v1),
        ("vis|seg_mask_trg", v2), ("vis|density_sim_feat", v3)]) = some v2
  ∧ List.lookup "vis|density_sim_feat" (dUpd S [("vis|seg_mask_src", v1),
        ("vis|seg_mask_trg", v2), ("vis|density_sim_feat", v3)]) = some v3 :=
  ⟨lookup_dUpd_some _ _ _ _ rfl, lookup_dUpd_some _ _ _ _ rfl,
   lookup_dUpd_some _ _ _ _ rfl⟩

/-- C8 — Under the collaborator contracts (decode-head states carry
`seg_logits`, the similarity-loss state carries `sim_feat`, and the
per-sample target-feature transform succeeds), `train_step` returns
`num_samples` equal to the number of source samples plus the number of
target samples, and its state mapping contains the keys `vis|seg_mask_src`,
`vis|seg_mask_trg` and `vis|density_sim_feat`. -/
theorem train_step_samples_and_vis (m : Model) (b : Batch) (F : Tensor4)
    (lsrc : Losses) (ssrc : States) (ltrg : Losses) (strg : States)
    (Ls Lt : Tensor4) (simL : Losses) (simS : States) (sf : Tensor3)
    (hF : transformTargets b.img_metas_trg b.feats_trg = .ok F)
    (hds : m.decodeHead.fwdTrain (extract_feat m b.img_src) b.img_metas_src b.gt_src
      = (lsrc, ssrc))
    (hdt : m.decodeHead.fwdTrain (extract_feat m b.img_trg) b.img_metas_trg b.gt_trg
      = (ltrg, strg))
    (hLs : List.lookup "seg_logits" ssrc = some (StateVal.t4 Ls))
    (hLt : List.lookup "seg_logits" strg = some (StateVal.t4 Lt))
    (hsim : m.lossSimFeat F Lt = (simL, simS))
    (hsf : List.lookup "sim_feat" simS = some (StateVal.t3 sf)) :
    (train_step m b).map (fun o => (o.num_samples,
        (List.lookup "vis|seg_mask_src" o.states).isSome,
        (List.lookup "vis|seg_mask_trg" o.states).isSome,
        (List.lookup "vis|density_sim_feat" o.states).isSome))
      = .ok (b.img_metas_src.length + b.img_metas_trg.length, true, true, true) := by
  have hA0 : List.lookup "src.dec.seg_logits"
      (dUpd (dUpd ([] : States)
        (addPfx (dUpd ssrc [("seg_logits", StateVal.t4 Ls)]) "src.dec"))
        (addPfx (dUpd strg [("seg_logits", StateVal.t4 Lt)]) "trg.dec"))
      = some (StateVal.t4 Ls) := by
    rw [lookup_dUpd_none _ _ _ (lookup_addPfx_none _ _ _ ne_trgdec_pfx_srcdec), dUpd_nil]
    rw [show ("src.dec.seg_logits" : String) = "src.dec" ++ "." ++ "seg_logits" from rfl,
      lookup_addPfx]
    exact lookup_dUpd_some _ _ _ _ rfl
  have hB0 : List.lookup "trg.dec.seg_logits"
      (dUpd (dUpd ([] : States)
        (addPfx (dUpd ssrc [("seg_logits", StateVal.t4 Ls)]) "src.dec"))
        (addPfx (dUpd strg [("seg_logits", StateVal.t4 Lt)]) "trg.dec"))
      = some (StateVal.t4 Lt) := by
    rw [show ("trg.dec.seg_logits" : String) = "trg.dec" ++ "." ++ "seg_logits" from rfl]
    exact lookup_dUpd_some _ _ _ _ (by rw [lookup_addPfx]; exact lookup_dUpd_some _ _ _ _ rfl)
  have hkeysS := aux_states_keys m (extract_feat m b.img_src) b.img_metas_src b.gt_src
  have hkeysT := aux_states_keys m (extract_feat m b.img_trg) b.img_metas_trg b.gt_trg
  simp only [train_step, hF, hds, hdt, hLt, hsim, hLs]
  cases haux : m.auxHead with
  | none =>
    simp only [hA0, hB0, hsf, Except.map]
    rw [(lookup_vis_keys _ _ _ _).1, (lookup_vis_keys _ _ _ _).2.1,
        (lookup_vis_keys _ _ _ _).2.2]
    rfl
  | single hd1 =>
    have hA : List.lookup "src.dec.seg_logits"
        (dUpd (dUpd (dUpd (dUpd ([] : States)
            (addPfx (dUpd ssrc [("seg_logits", StateVal.t4 Ls)]) "src.dec"))
            (addPfx (dUpd strg [("seg_logits", StateVal.t4 Lt)]) "trg.dec"))
          (addPfx (aux_forward_train m (extract_feat m b.img_src) b.img_metas_src b.gt_src).2
            "src"))
          (addPfx (aux_forward_train m (extract_feat m b.img_trg) b.img_metas_trg b.gt_trg).2
            "trg"))
        = some (StateVal.t4 Ls) := by
      rw [lookup_dUpd_none _ _ _ (lookup_pfxed_aux_none _ _ _ hkeysT ne_trg_aux_srcdec),
          lookup_dUpd_none _ _ _ (lookup_pfxed_aux_none _ _ _ hkeysS ne_src_aux_srcdec)]
      exact hA0
    have hB : List.lookup "trg.dec.seg_logits"
        (dUpd (dUpd (dUpd (dUpd ([] : States)
            (addPfx (dUpd ssrc [("seg_logits", StateVal.t4 Ls)]) "src.dec"))
            (addPfx (dUpd strg [("seg_logits", StateVal.t4 Lt)]) "trg.dec"))
          (addPfx (aux_forward_train m (extract_feat m b.img_src) b.img_metas_src b.gt_src).2
            "src"))
          (addPfx (aux_forward_train m (extract_feat m b.img_trg) b.img_metas_trg b.gt_trg).2
            "trg"))
        = some (StateVal.t4 Lt) := by
      rw [lookup_dUpd_none _ _ _ (lookup_pfxed_aux_none _ _ _ hkeysT ne_trg_aux_trgdec),
          lookup_dUpd_none _ _ _ (lookup_pfxed_aux_none _ _ _ hkeysS ne_src_aux_trgdec)]
      exact hB0
    simp only [haux] at hA hB hkeysS hkeysT
    simp only [hA, hB, hsf, Except.map]
    rw [(lookup_vis_keys _ _ _ _).1, (lookup_vis_keys _ _ _ _).2.1,
        (lookup_vis_keys _ _ _ _).2.2]
    rfl
  | multiple hds1 =>
    have hA : List.lookup "src.dec.seg_logits"
        (dUpd (dUpd (dUpd (dUpd ([] : States)
            (addPfx (dUpd ssrc [("seg_logits", StateVal.t4 Ls)]) "src.dec"))
            (addPfx (dUpd strg [("seg_logits", StateVal.t4 Lt)]) "trg.dec"))
          (addPfx (aux_forward_train m (extract_feat m b.img_src) b.img_metas_src b.gt_src).2
            "src"))
          (addPfx (aux_forward_train m (extract_feat m b.img_trg) b.img_metas_trg b.gt_trg).2
            "trg"))
        = some (StateVal.t4 Ls) := by
      rw [lookup_dUpd_none _ _ _ (lookup_pfxed_aux_none _ _ _ hkeysT ne_trg_aux_srcdec),
          lookup_dUpd_none _ _ _ (lookup_pfxed_aux_none _ _ _ hkeysS ne_src_aux_srcdec)]
      exact hA0
    have hB : List.lookup "trg.dec.seg_logits"
        (dUpd (dUpd (dUpd (dUpd ([] : States)
            (addPfx (dUpd ssrc [("seg_logits", StateVal.t4 Ls)]) "src.dec"))
            (addPfx (dUpd strg [("seg_logits", StateVal.t4 Lt)]) "trg.dec"))
          (addPfx (aux_forward_train m (extract_feat m b.img_src) b.img_metas_src b.gt_src).2
            "src"))
          (addPfx (aux_forward_train m (extract_feat m b.img_trg) b.img_metas_trg b.gt_trg).2
            "trg"))
        = some (StateVal.t4 Lt) := by
      rw [lookup_dUpd_none _ _ _ (lookup_pfxed_aux_none _ _ _ hkeysT ne_trg_aux_trgdec),
          lookup_dUpd_none _ _ _ (lookup_pfxed_aux_none _ _ _ hkeysS ne_src_aux_trgdec)]
      exact hB0
    simp only [haux] at hA hB hkeysS hkeysT
    simp only [hA, hB, hsf, Except.map]
    rw [(lookup_vis_keys _ _ _ _).1, (lookup_vis_keys _ _ _ _).2.1,
        (lookup_vis_keys _ _ _ _).2.2]
    rfl

def trainModel : Model where
  numClasses := 2
  alignCorners := false
  backbone := fun t => [t]
  neck := none
  decodeHead :=
    { fwdTrain := fun _ _ _ =>
        ([("loss_seg", 1)], [("seg_logits", StateVal.t4 (zeros4 1 2 2 2))]),
      fwdTest := fun _ _ => zeros4 1 2 1 1 }
  auxHead := AuxCfg.none
  lossSimFeat := fun _ _ =>
    ([("loss_sim", 1)], [("sim_feat", StateVal.t3 ⟨1, 2, 2, fun _ _ _ => 0⟩)])
  testCfg := { mode := "whole" }

def trainBatch : Batch where
  img_metas_src := [{}]
  img_src := zeros4 1 3 2 2
  gt_src := zeros4 1 1 2 2
  img_metas_trg := [{}]
  img_trg := zeros4 1 3 2 2
  gt_trg := zeros4 1 1 2 2
  feats_trg := zeros4 1 2 2 2

def trainF : Tensor4 :=
  match transformTargets trainBatch.img_metas_trg trainBatch.feats_trg with
  | .ok t => t
  | .error _ => zeros4 0 0 0 0

theorem train_step_samples_and_vis_witness :
    (train_step trainModel trainBatch).map (fun o => (o.num_samples,
        (List.lookup "vis|seg_mask_src" o.states).isSome,
        (List.lookup "vis|seg_mask_trg" o.states).isSome,
        (List.lookup "vis|density_sim_feat" o.states).isSome))
      = .ok (2, true, true, true) :=
  train_step_samples_and_vis trainModel trainBatch trainF
    [("loss_seg", 1)] [("seg_logits", StateVal.t4 (zeros4 1 2 2 2))]
    [("loss_seg", 1)] [("seg_logits", StateVal.t4 (zeros4 1 2 2 2))]
    (zeros4 1 2 2 2) (zeros4 1 2 2 2)
    [("loss_sim", 1)] [("sim_feat", StateVal.t3 ⟨1, 2, 2, fun _ _ _ => 0⟩)]
    ⟨1, 2, 2, fun _ _ _ => 0⟩
    rfl rfl rfl rfl rfl rfl rfl
